import Mathlib

/-!
Shallow embedding of `create-roadmap-issues.py`: a script that resolves a
GitHub token, ensures a `feature` label exists on a repository, and creates
one issue per entry of a fixed list of drafts, tallying successes and
failures.  Network interaction is modelled by an explicit environment: each
`urlopen` call's outcome is supplied as data, and the requests the script
issues are collected into a trace.
-/

namespace RoadmapIssues

/-- Python whitespace characters, as stripped by `str.strip()` (ASCII part). -/
def isPySpace (c : Char) : Bool :=
  c == ' ' || c == '\t' || c == '\n' || c == '\x0d' || c == '\x0b' || c == '\x0c'

/-- `str.strip()` on the character list: drop whitespace from both ends. -/
def pyStripList (l : List Char) : List Char :=
  ((l.dropWhile isPySpace).reverse.dropWhile isPySpace).reverse

/-- Python `str.strip()` with no argument: remove leading and trailing whitespace. -/
def pyStrip (s : String) : String :=
  ⟨pyStripList s.data⟩

/-- Result of `get_github_token`: either a token string is returned, or the
process terminates via `sys.exit(1)`. -/
inductive TokenResult where
  | token (t : String)
  | exit1
deriving DecidableEq, Repr

/-- The prompt branch of `get_github_token`:
`token = input(...).strip(); if not token: sys.exit(1); return token`. -/
def promptForToken (promptInput : String) : TokenResult :=
  let token := pyStrip promptInput
  if token = "" then .exit1 else .token token

/-- `get_github_token()`.  `argv` is `sys.argv` (the script name included),
`env` is `os.environ.get('GITHUB_TOKEN')` (`none` when unset), `promptInput`
is the line read by `input()`.  The command-line argument is returned
unconditionally; a falsy (unset or empty) environment value falls through to
the prompt. -/
def get_github_token (argv : List String) (env : Option String)
    (promptInput : String) : TokenResult :=
  if h : 1 < argv.length then .token (argv.get ⟨1, h⟩)
  else
    match env with
    | some t => if t = "" then promptForToken promptInput else .token t
    | none => promptForToken promptInput

/-- What `create_issue` observes of a successful response body:
`json.loads` either fails, or yields an object whose `number` field may be
absent. -/
inductive RespBody where
  | json (numberField : Option Nat)
  | notJson
deriving DecidableEq, Repr

/-- How a `urlopen` call can fail: an `urllib.error.HTTPError` carrying a
status code and an error body, or any other exception (transport errors such
as `urllib.error.URLError`, etc.). -/
inductive NetError where
  | httpError (code : Nat) (body : String)
  | transport (msg : String)
deriving DecidableEq, Repr

/-- Outcome of one `urlopen` call. -/
inductive UrlopenResult where
  | ok (body : RespBody)
  | err (e : NetError)
deriving DecidableEq, Repr

/-- The JSON payload attached to a request, modelled structurally. -/
inductive ReqBody where
  | empty
  | labelCreate (name description color : String)
  | issueCreate (title body : String) (labels : List String)
deriving DecidableEq, Repr

/-- One HTTP request as built by the script. -/
structure Request where
  method : String
  url : String
  headers : List (String × String)
  body : ReqBody
deriving DecidableEq, Repr

def REPO_OWNER : String := "eddiemoore"

def REPO_NAME : String := "StructureCreator"

/-- URL of the label-check GET. -/
def labelCheckUrl : String :=
  "https://api.github.com/repos/" ++ REPO_OWNER ++ "/" ++ REPO_NAME ++ "/labels/feature"

/-- URL of the create-label POST. -/
def labelsUrl : String :=
  "https://api.github.com/repos/" ++ REPO_OWNER ++ "/" ++ REPO_NAME ++ "/labels"

/-- URL of the create-issue POST. -/
def issuesUrl : String :=
  "https://api.github.com/repos/" ++ REPO_OWNER ++ "/" ++ REPO_NAME ++ "/issues"

def authHeader (token : String) : String × String :=
  ("Authorization", "token " ++ token)

def acceptHeader : String × String :=
  ("Accept", "application/vnd.github.v3+json")

def contentTypeHeader : String × String :=
  ("Content-Type", "application/json")

/-- The `headers` dict built in `check_and_create_label`. -/
def labelHeaders (token : String) : List (String × String) :=
  [authHeader token, acceptHeader]

/-- The label-check GET request. -/
def labelGetRequest (token : String) : Request :=
  { method := "GET", url := labelCheckUrl, headers := labelHeaders token,
    body := .empty }

/-- The create-label POST request, with the fixed name, description and
color; its headers are the label headers merged with Content-Type. -/
def labelCreateRequest (token : String) : Request :=
  { method := "POST", url := labelsUrl,
    headers := labelHeaders token ++ [contentTypeHeader],
    body := .labelCreate "feature" "New feature or enhancement" "0E8A16" }

/-- Network outcomes the label step can observe: one for the GET, one for
the POST (the latter consulted only when the POST happens). -/
structure LabelNet where
  getResult : UrlopenResult
  createResult : UrlopenResult
deriving DecidableEq, Repr

/-- `check_and_create_label`.  Returns the requests issued and the exception
escaping the function, if any: only `urllib.error.HTTPError` is caught, on
both the GET and the POST, so any other exception propagates. -/
def check_and_create_label (token : String) (net : LabelNet) :
    List Request × Option NetError :=
  match net.getResult with
  | .ok _ => ([labelGetRequest token], none)
  | .err (.httpError code _) =>
    if code = 404 then
      match net.createResult with
      | .ok _ => ([labelGetRequest token, labelCreateRequest token], none)
      | .err (.httpError _ _) =>
        ([labelGetRequest token, labelCreateRequest token], none)
      | .err (.transport m) =>
        ([labelGetRequest token, labelCreateRequest token], some (.transport m))
    else
      ([labelGetRequest token], none)
  | .err (.transport m) => ([labelGetRequest token], some (.transport m))

/-- The create-issue POST request for one draft. -/
def issueRequest (token title body : String) : Request :=
  { method := "POST", url := issuesUrl,
    headers := [authHeader token, acceptHeader, contentTypeHeader],
    body := .issueCreate title body ["feature"] }

/-- `create_issue`.  Returns the request issued and the boolean result:
`True` only when `urlopen` succeeds, the body parses as JSON and
`result['number']` exists; `HTTPError` and every other exception
(`json.loads` failure, missing key, transport error) yield `False`. -/
def create_issue (token title body : String) (net : UrlopenResult) :
    Request × Bool :=
  (issueRequest token title body,
    match net with
    | .ok (.json numberField) => numberField.isSome
    | .ok .notJson => false
    | .err _ => false)

/-- One draft of the fixed list: an immutable (title, body) pair. -/
structure IssueDraft where
  title : String
  body : String
deriving DecidableEq, Repr
/-- The fixed, hardcoded list of roadmap issue drafts (the ISSUES list of the script). -/
def ISSUES : List IssueDraft := [
  ⟨"Visual Schema Editor",
   "## Description\nImplement a drag-and-drop tree editor to build folder structures visually instead of writing XML manually.\n\n## Features\n- Drag-and-drop interface to build folder structures\n- Add/remove/rename nodes without writing XML\n- Right-click context menus for common actions\n- Double-click to edit names inline\n- Visual indicators for files vs folders\n- Undo/redo for tree modifications\n\n## Benefits\n- Greatly improves usability for non-technical users\n- Reduces errors from manual XML editing\n- Speeds up template creation workflow\n\n## Category\nHigh-Priority Feature\n\n## Related\nSee ROADMAP.md for additional context"⟩,
  ⟨"CLI Interface",
   "## Description\nCreate a command-line interface for Structure Creator to enable automation and CI/CD integration.\n\n## Features\n\x60\x60\x60bash\n# Create from template\nstructure-creator create --template \"React App\" --output ./my-app --var NAME=MyProject\n\n# Create from XML file\nstructure-creator create --schema ./schema.xml --output ./project\n\n# List templates\nstructure-creator templates list\n\n# Export template\nstructure-creator templates export \"React App\" --output ./react-app.sct\n\n# Dry run\nstructure-creator create --template \"React App\" --output ./my-app --dry-run\n\x60\x60\x60\n\n## Benefits\n- Enables automation and scripting\n- CI/CD pipeline integration\n- Batch operations support\n- Headless server usage\n\n## Category\nHigh-Priority Feature\n\n## Related\nSee ROADMAP.md for additional context"⟩,
  ⟨"Conditional Logic in Schemas",
   "## Description\nAdd if/else syntax to schemas for creating reusable templates that adapt based on variable values.\n\n## Example\n\x60\x60\x60xml\n<folder name=\"src\">\n  <if var=\"USE_TYPESCRIPT\">\n    <file name=\"index.ts\" />\n  </if>\n  <else>\n    <file name=\"index.js\" />\n  </else>\n</folder>\n\x60\x60\x60\n\n## Benefits\n- More flexible and reusable templates\n- Single template can handle multiple configurations\n- Reduces template duplication\n\n## Category\nHigh-Priority Feature\n\n## Related\nSee ROADMAP.md for additional context"⟩,
  ⟨"Template Import/Export",
   "## Description\nEnable sharing templates as portable files, providing the foundation for a future template hub.\n\n## Features\n- Export templates as .sct files (structured JSON bundle)\n- Import from local files\n- Import from URLs\n- Bulk import/export\n- Include/exclude variables option\n\n## Benefits\n- Easy template sharing between users and teams\n- Backup and restore templates\n- Foundation for community template hub\n- Version control for templates\n\n## Category\nHigh-Priority Feature\n\n## Related\nSee ROADMAP.md for additional context"⟩,
  ⟨"Post-Creation Hooks",
   "## Description\nAllow running commands automatically after structure creation (e.g., npm install, git init, code .).\n\n## Example\n\x60\x60\x60xml\n<schema>\n  <folder name=\"my-project\">...</folder>\n  <hooks>\n    <post-create>npm install</post-create>\n    <post-create>git init</post-create>\n    <post-create>code .</post-create>\n  </hooks>\n</schema>\n\x60\x60\x60\n\n## Benefits\n- Automates common setup tasks\n- Reduces manual steps after creation\n- Improves workflow efficiency\n- Consistent project initialization\n\n## Category\nHigh-Priority Feature\n\n## Related\nSee ROADMAP.md for additional context"⟩,
  ⟨"Repeater/Loop Syntax",
   "## Description\nAdd loop/repeat functionality to generate multiple similar structures dynamically.\n\n## Example\n\x60\x60\x60xml\n<repeat count=\"%NUM_MODULES%\" as=\"i\">\n  <folder name=\"module_%i%\">\n    <file name=\"index.ts\" />\n  </folder>\n</repeat>\n\x60\x60\x60\n\n## Benefits\n- Generate multiple similar structures efficiently\n- Dynamic structure creation based on variables\n- Reduces repetitive XML writing\n\n## Category\nSchema Enhancement\n\n## Related\nSee ROADMAP.md for additional context"⟩,
  ⟨"Variable Types & Transformations",
   "## Description\nAdd support for variable transformations, types, and validation.\n\n## Features\n- Case transformations: \x60%NAME:uppercase%\x60, \x60%NAME:kebab-case%\x60, \x60%NAME:camelCase%\x60\n- Date formatting: \x60%DATE:format(YYYY-MM-DD)%\x60\n- Computed values: \x60%NAME:plural%\x60, \x60%NAME:length%\x60\n- Validation rules: regex patterns, min/max length, required fields\n\n## Benefits\n- More powerful variable system\n- Automatic name formatting\n- Input validation\n- Reduces manual text manipulation\n\n## Category\nSchema Enhancement\n\n## Related\nSee ROADMAP.md for additional context"⟩,
  ⟨"Template Inheritance",
   "## Description\nAllow templates to extend other templates for better code reuse and modularity.\n\n## Example\n\x60\x60\x60xml\n<template extends=\"base-react-app\">\n  <folder name=\"additional-feature\">\n    <file name=\"feature.ts\" />\n  </folder>\n</template>\n\x60\x60\x60\n\n## Benefits\n- Better template organization\n- Reduced duplication\n- Easier maintenance\n- Modular template design\n\n## Category\nSchema Enhancement\n\n## Related\nSee ROADMAP.md for additional context"⟩,
  ⟨"File Content Templates",
   "## Description\nImplement a full templating engine for file contents with conditional logic and loops.\n\n## Example\n\x60\x60\x60xml\n<file name=\"README.md\"><![CDATA[\n# %PROJECT_NAME%\n\nCreated on %DATE%\n\n## Installation\n\n\x7b\x7bif USE_NPM\x7d\x7d\nnpm install\n\x7b\x7belse\x7d\x7d\nyarn install\n\x7b\x7bendif\x7d\x7d\n\n## Features\n\x7b\x7bfor feature in FEATURES\x7d\x7d\n- \x7b\x7bfeature\x7d\x7d\n\x7b\x7bendfor\x7d\x7d\n]]></file>\n\x60\x60\x60\n\n## Benefits\n- Dynamic file content generation\n- Complex template logic in files\n- Reduces need for post-processing\n- More powerful file generation\n\n## Category\nSchema Enhancement\n\n## Related\nSee ROADMAP.md for additional context"⟩,
  ⟨"Diff Preview for Dry Run",
   "## Description\nEnhance dry run mode with visual comparison of planned changes vs existing files.\n\n## Features\n- Visual comparison of planned vs existing files\n- Color coding: green (new), red (overwrite), yellow (skip)\n- Expandable tree view showing all changes\n- Summary statistics at top\n\n## Benefits\n- Better understanding of what will change\n- Prevents accidental overwrites\n- More confidence before execution\n- Clear visualization of impact\n\n## Category\nUser Experience\n\n## Related\nSee ROADMAP.md for additional context"⟩,
  ⟨"Template Search & Tags",
   "## Description\nAdd comprehensive template search and tagging system.\n\n## Features\n- Full-text search across template names and descriptions\n- Tagging system (e.g., \"react\", \"python\", \"monorepo\", \"backend\")\n- Filter templates by tags\n- Sort by name, date, usage, favorites\n\n## Benefits\n- Easy template discovery\n- Better organization\n- Quick finding of relevant templates\n- Improved template management\n\n## Category\nUser Experience\n\n## Related\nSee ROADMAP.md for additional context"⟩,
  ⟨"Recent Projects History",
   "## Description\nTrack recently created structures for quick re-creation with modifications.\n\n## Features\n- Track last N created structures\n- Quick re-create with same settings\n- Edit variables and re-run\n- Clear history option\n\n## Benefits\n- Faster iteration on templates\n- Easy recreation of similar projects\n- Improves workflow efficiency\n- Reduces repetitive data entry\n\n## Category\nUser Experience\n\n## Related\nSee ROADMAP.md for additional context"⟩,
  ⟨"Keyboard Shortcuts",
   "## Description\nAdd comprehensive keyboard shortcuts for common operations.\n\n## Shortcuts\n- \x60Cmd/Ctrl + Enter\x60 - Create structure\n- \x60Cmd/Ctrl + N\x60 - New template\n- \x60Cmd/Ctrl + O\x60 - Open folder/file\n- \x60Cmd/Ctrl + S\x60 - Save current as template\n- \x60Cmd/Ctrl + F\x60 - Focus search\n- \x60Escape\x60 - Cancel/close modals\n- Arrow keys - Navigate template list\n\n## Benefits\n- Faster workflow for power users\n- Reduced mouse usage\n- More efficient navigation\n- Better accessibility\n\n## Category\nUser Experience\n\n## Related\nSee ROADMAP.md for additional context"⟩,
  ⟨"Template Previews",
   "## Description\nAdd visual previews of templates before use.\n\n## Features\n- Thumbnail/icon preview of template structure\n- Quick-view popup on hover\n- Full preview modal\n- Generated file count and stats\n\n## Benefits\n- Better understanding of templates before use\n- Visual template browsing\n- Faster template selection\n- Improved user experience\n\n## Category\nUser Experience\n\n## Related\nSee ROADMAP.md for additional context"⟩,
  ⟨"Watch Mode",
   "## Description\nMonitor schema files for changes and auto-recreate structures on save.\n\n## Features\n- Monitor schema file for changes\n- Auto-recreate structure on save\n- Useful for iterating on project templates\n- Configurable debounce delay\n\n## Benefits\n- Faster template development iteration\n- Real-time preview of changes\n- Improved development workflow\n- Reduced manual re-execution\n\n## Category\nWorkflow & Automation\n\n## Related\nSee ROADMAP.md for additional context"⟩,
  ⟨"Batch Operations",
   "## Description\nEnable batch creation operations for multiple structures or locations.\n\n## Features\n- Create same structure in multiple locations\n- Apply multiple templates sequentially\n- Variable sets for different configurations\n- Progress tracking for batch jobs\n\n## Benefits\n- Bulk project setup\n- Consistent structure across multiple locations\n- Time savings for large operations\n- Better support for monorepos\n\n## Category\nWorkflow & Automation\n\n## Related\nSee ROADMAP.md for additional context"⟩,
  ⟨"Template Wizards",
   "## Description\nStep-by-step guided template creation and configuration.\n\n## Workflow\n1. Choose base template type\n2. Answer configuration questions\n3. Preview generated schema\n4. Customize if needed\n5. Create structure\n\n## Benefits\n- Easier for new users\n- Guided template selection\n- Reduces errors\n- Better onboarding experience\n\n## Category\nWorkflow & Automation\n\n## Related\nSee ROADMAP.md for additional context"⟩,
  ⟨"Schema Validation",
   "## Description\nComprehensive validation of schemas before execution.\n\n## Features\n- Validate XML syntax before creation\n- Check for undefined variable references\n- Warn about duplicate names\n- Detect circular template inheritance\n- Validate URLs before download attempts\n\n## Benefits\n- Catch errors early\n- Better error messages\n- Prevents failed executions\n- Improved reliability\n\n## Category\nWorkflow & Automation\n\n## Related\nSee ROADMAP.md for additional context"⟩,
  ⟨"Debug Mode",
   "## Description\nAdd comprehensive debugging capabilities for troubleshooting.\n\n## Features\n- Verbose logging of all operations\n- Step-by-step execution with pauses\n- Variable substitution visualization\n- Performance timing for each operation\n\n## Benefits\n- Easier troubleshooting\n- Better understanding of execution\n- Performance analysis\n- Development debugging\n\n## Category\nWorkflow & Automation\n\n## Related\nSee ROADMAP.md for additional context"⟩,
  ⟨"Template Hub / Registry",
   "## Description\nCreate a community hub for browsing and sharing templates.\n\n## Features\n- Browse community-created templates\n- Publish templates publicly\n- Version tracking and changelogs\n- Ratings and reviews\n- Download counts\n- Categories and tags\n\n## Benefits\n- Community template ecosystem\n- Easy template discovery\n- Shared knowledge base\n- Reduced duplicate work\n\n## Category\nCollaboration & Sharing\n\n## Related\nSee ROADMAP.md for additional context\n**Requires**: Template Import/Export feature"⟩,
  ⟨"Team Template Libraries",
   "## Description\nEnable teams to share and manage templates collectively.\n\n## Features\n- Shared template storage (local network or cloud)\n- Organization-level template management\n- Role-based access controls\n- Sync across team members\n- Audit logging\n\n## Benefits\n- Team standardization\n- Centralized template management\n- Better collaboration\n- Consistent project structures\n\n## Category\nCollaboration & Sharing\n\n## Related\nSee ROADMAP.md for additional context"⟩,
  ⟨"Git Integration for Templates",
   "## Description\nStore and version templates in Git repositories.\n\n## Features\n- Store templates in Git repository\n- Version history for templates\n- Branch-based template variants\n- Pull updates from remote\n\n## Benefits\n- Version control for templates\n- Easy collaboration through Git\n- Backup and history\n- Standard Git workflows\n\n## Category\nCollaboration & Sharing\n\n## Related\nSee ROADMAP.md for additional context"⟩,
  ⟨"GitHub/GitLab Integration",
   "## Description\nDeep integration with GitHub and GitLab platforms.\n\n## Features\n- Create repository + structure in one action\n- Use GitHub repo as template source\n- Sync templates with GitHub Gists\n- GitHub Actions integration\n\n## Benefits\n- Streamlined repository creation\n- Template hosting on GitHub\n- Automated workflows\n- Better developer experience\n\n## Category\nCollaboration & Sharing\n\n## Related\nSee ROADMAP.md for additional context"⟩,
  ⟨"Smart File Detection",
   "## Description\nAnalyze folder structures to suggest template types and relevant variables.\n\n## Features\n- Analyze folder structure to suggest template type\n- Detect frameworks (React, Vue, Django, etc.)\n- Suggest relevant variables\n- Auto-populate common patterns\n\n## Benefits\n- Intelligent template suggestions\n- Faster template creation\n- Framework-aware recommendations\n- Reduced manual configuration\n\n## Category\nAdvanced File Operations\n\n## Related\nSee ROADMAP.md for additional context"⟩,
  ⟨"Binary File Generation",
   "## Description\nGenerate various types of binary and data files.\n\n## Features\n- Generate placeholder images with custom dimensions/colors\n- Create empty SQLite databases with defined schema\n- Generate sample data files (JSON, CSV)\n- Create stub binary files for testing\n\n## Benefits\n- Complete project scaffolding\n- Test data generation\n- Placeholder assets\n- Full project setup automation\n\n## Category\nAdvanced File Operations\n\n## Related\nSee ROADMAP.md for additional context"⟩,
  ⟨"Structure Comparison",
   "## Description\nCompare folder structures and templates visually.\n\n## Features\n- Compare two folder structures visually\n- Compare two templates side-by-side\n- Highlight differences\n- Merge capabilities\n\n## Benefits\n- Easy structure analysis\n- Template comparison\n- Migration planning\n- Better understanding of changes\n\n## Category\nAdvanced File Operations\n\n## Related\nSee ROADMAP.md for additional context"⟩,
  ⟨"Plugin System",
   "## Description\nCreate an extensible plugin system for custom functionality.\n\n## Example\n\x60\x60\x60javascript\n// plugins/license-header.js\nexport default \x7b\n  name: \x27license-header\x27,\n  fileTypes: [\x27.ts\x27, \x27.js\x27],\n  process(content, variables, filePath) \x7b\n    const header = \x60// Copyright $\x7bvariables.YEAR\x7d $\x7bvariables.AUTHOR\x7d\\n// Licensed under MIT\\n\\n\x60;\n    return header + content;\n  \x7d\n\x7d;\n\x60\x60\x60\n\n## Plugin Capabilities\n- Custom file processors\n- Variable transformers\n- Schema validators\n- Post-creation hooks\n- UI extensions\n\n## Benefits\n- Extensible architecture\n- Community plugins\n- Custom workflows\n- Integration possibilities\n\n## Category\nDeveloper Features\n\n## Related\nSee ROADMAP.md for additional context"⟩,
  ⟨"API/SDK",
   "## Description\nExpose Structure Creator functionality as a library/SDK.\n\n## Example\n\x60\x60\x60typescript\nimport \x7b StructureCreator \x7d from \x27structure-creator\x27;\n\nconst creator = new StructureCreator();\nconst tree = await creator.parseSchema(xmlContent);\nawait creator.create(tree, \x27/output/path\x27, \x7b\n  variables: \x7b NAME: \x27MyProject\x27 \x7d\n\x7d);\n\x60\x60\x60\n\n## Benefits\n- Programmatic usage\n- Integration into other tools\n- Custom automation\n- Library ecosystem\n\n## Category\nDeveloper Features\n\n## Related\nSee ROADMAP.md for additional context"⟩,
  ⟨"Undo/Redo Operations",
   "## Description\nAdd ability to undo/redo structure creation operations.\n\n## Features\n- Revert last created structure\n- Multi-level undo history\n- Confirmation for destructive undos\n- Session-based history\n\n## Benefits\n- Safety net for mistakes\n- Easier experimentation\n- Confidence in operations\n- Better user experience\n\n## Category\nQuality of Life\n\n## Related\nSee ROADMAP.md for additional context"⟩,
  ⟨"Favorites Bar",
   "## Description\nPin frequently-used templates to a quick access favorites bar.\n\n## Features\n- Pin most-used templates to top bar\n- Quick access with single click\n- Drag to reorder\n- Customizable slots\n\n## Benefits\n- Faster access to common templates\n- Customizable workflow\n- Improved efficiency\n- Better organization\n\n## Category\nQuality of Life\n\n## Related\nSee ROADMAP.md for additional context"⟩,
  ⟨"Statistics Dashboard",
   "## Description\nTrack and display usage statistics and insights.\n\n## Features\n- Templates created over time\n- Most-used templates chart\n- Total structures generated\n- Files/folders created totals\n- Usage trends\n\n## Benefits\n- Usage insights\n- Template popularity data\n- Activity tracking\n- Productivity metrics\n\n## Category\nQuality of Life\n\n## Related\nSee ROADMAP.md for additional context"⟩,
  ⟨"Multi-Language Support (i18n)",
   "## Description\nAdd internationalization support for multiple languages.\n\n## Languages\n- English (default)\n- Spanish\n- French\n- German\n- Japanese\n- Chinese\n- Community translations\n\n## Benefits\n- Global accessibility\n- Wider user base\n- Better user experience\n- Community contributions\n\n## Category\nQuality of Life\n\n## Related\nSee ROADMAP.md for additional context"⟩,
  ⟨"Custom Themes",
   "## Description\nAdd customizable themes and color schemes.\n\n## Features\n- Theme editor/creator\n- Import/export themes\n- Community theme gallery\n- Per-template color coding\n- Syntax highlighting themes for XML\n\n## Benefits\n- Personalization\n- Better aesthetics\n- Accessibility (dark mode, high contrast)\n- User preference support\n\n## Category\nQuality of Life\n\n## Related\nSee ROADMAP.md for additional context"⟩,
  ⟨"VS Code Extension",
   "## Description\nCreate a VS Code extension for Structure Creator.\n\n## Features\n- Create structures from command palette\n- Right-click folder to scan as template\n- Template browser sidebar\n- Schema syntax highlighting\n- IntelliSense for variables\n\n## Benefits\n- Seamless VS Code integration\n- Better developer workflow\n- IDE-native experience\n- Increased adoption\n\n## Category\nIntegration\n\n## Related\nSee ROADMAP.md for additional context"⟩,
  ⟨"JetBrains Plugin",
   "## Description\nCreate plugins for JetBrains IDEs (IntelliJ, WebStorm, PyCharm, etc.).\n\n## Features\n- Similar functionality to VS Code extension\n- Project template integration\n- Tool window for template management\n- IDE-specific optimizations\n\n## Benefits\n- JetBrains IDE support\n- Wider IDE coverage\n- Better developer experience\n- Increased adoption\n\n## Category\nIntegration\n\n## Related\nSee ROADMAP.md for additional context"⟩,
  ⟨"Cloud Storage Integration",
   "## Description\nEnable creating structures directly in cloud storage services.\n\n## Supported Services\n- Dropbox\n- Google Drive\n- OneDrive\n- iCloud Drive\n\n## Features\n- Create structures directly in cloud storage\n- Sync templates across devices\n- Cloud-based template libraries\n- Cross-platform synchronization\n\n## Benefits\n- Cloud workflow support\n- Device synchronization\n- Remote structure creation\n- Backup capabilities\n\n## Category\nIntegration\n\n## Related\nSee ROADMAP.md for additional context"⟩,
  ⟨"Webhook Support",
   "## Description\nAdd webhook support for remote triggering and integrations.\n\n## Features\n- Trigger creation via HTTP webhook\n- Integration with automation tools (Zapier, n8n)\n- Slack/Discord notifications on creation\n- CI/CD pipeline triggers\n\n## Benefits\n- Automation integrations\n- Event-driven workflows\n- Team notifications\n- External tool integration\n\n## Category\nIntegration\n\n## Related\nSee ROADMAP.md for additional context"⟩
]

/-- The environment of one run: `sys.argv`, `os.environ.get('GITHUB_TOKEN')`,
the `input()` line, and the outcome of every `urlopen` call — one pair for
the label step and one outcome per issue-creation request (by position). -/
structure World where
  argv : List String
  env : Option String
  stdin : String
  labelNet : LabelNet
  issueNet : Nat → UrlopenResult

/-- How a run ends: `sys.exit(1)` from the token resolver, an uncaught
exception, or the final summary with its two counters.  Each carries the
trace of requests issued up to that point. -/
inductive RunResult where
  | usageExit (requests : List Request)
  | crashed (e : NetError) (requests : List Request)
  | finished (succeeded failed : Nat) (requests : List Request)
deriving Repr

/-- The issue-creation loop of `main`: walk the drafts in order, issue one
request each, and count successes and failures.  `net j` is the outcome of
the request for the draft at 0-based position `j` of the list walked. -/
def publishLoop (token : String) :
    (Nat → UrlopenResult) → List IssueDraft → List Request × Nat × Nat
  | _, [] => ([], 0, 0)
  | net, d :: rest =>
    let (req, ok) := create_issue token d.title d.body (net 0)
    let (reqs, s, f) := publishLoop token (fun j => net (j + 1)) rest
    (req :: reqs, if ok then s + 1 else s, if ok then f else f + 1)

/-- `main()`: resolve the token (exiting 1 when none), run the label step
(crashing when an exception escapes it), then create every issue of `ISSUES`
and finish with the two counters. -/
def main (w : World) : RunResult :=
  match get_github_token w.argv w.env w.stdin with
  | .exit1 => .usageExit []
  | .token token =>
    let (labelReqs, exn) := check_and_create_label token w.labelNet
    match exn with
    | some e => .crashed e labelReqs
    | none =>
      let (issueReqs, s, f) := publishLoop token w.issueNet ISSUES
      .finished s f (labelReqs ++ issueReqs)

/-- The requests a finished, crashed or exited run issued. -/
def RunResult.requests : RunResult → List Request
  | .usageExit reqs => reqs
  | .crashed _ reqs => reqs
  | .finished _ _ reqs => reqs

/-- The process exit status: 1 on a usage error, 1 on an uncaught exception
(Python exits 1 on an uncaught traceback), and after a complete run 1 when
any issue failed, 0 otherwise. -/
def RunResult.exitCode : RunResult → Nat
  | .usageExit _ => 1
  | .crashed _ _ => 1
  | .finished _ f _ => if 0 < f then 1 else 0

/-- Whether one `urlopen` outcome makes `create_issue` report success. -/
def outcomeSucceeds : UrlopenResult → Bool
  | .ok (.json numberField) => numberField.isSome
  | _ => false

/-- An outcome that is a request failure in the spec's sense: a non-2xx
response (`HTTPError`) or a transport exception. -/
def outcomeFails : UrlopenResult → Bool
  | .err _ => true
  | _ => false

/-- A clean success: a response whose body parses as JSON with a `number`
field. -/
def outcomeCleanSuccess : UrlopenResult → Bool
  | .ok (.json numberField) => numberField.isSome
  | _ => false

/-- The credential resolver contract stated by the spec: whenever a token is
returned (rather than the process exiting), it is non-empty. -/
def resolverContract (r : TokenResult) : Prop :=
  ∀ t, r = .token t → t ≠ ""

/-- A concrete run in which everything succeeds: the token comes from the
command line, the label already exists, and every issue creation returns a
number. -/
def okWorld : World :=
  { argv := ["create-roadmap-issues.py", "tok"]
    env := some "envtok"
    stdin := " prompttok "
    labelNet := { getResult := .ok (.json none), createResult := .ok (.json none) }
    issueNet := fun _ => .ok (.json (some 1)) }

/-- A concrete run in which the label-check GET raises a transport error
(an `URLError` that is not an `HTTPError`). -/
def crashWorld : World :=
  { argv := ["create-roadmap-issues.py", "tok"]
    env := none
    stdin := ""
    labelNet := { getResult := .err (.transport "connection refused")
                  createResult := .ok (.json none) }
    issueNet := fun _ => .ok (.json (some 1)) }

/-- A concrete run in which the second issue creation returns HTTP 422 and
every other request succeeds. -/
def mixedWorld : World :=
  { argv := ["create-roadmap-issues.py", "tok"]
    env := none
    stdin := ""
    labelNet := { getResult := .ok (.json none), createResult := .ok (.json none) }
    issueNet := fun j =>
      if j = 1 then .err (.httpError 422 "Validation Failed") else .ok (.json (some 1)) }

end RoadmapIssues

namespace RoadmapIssues

/-! ### Basic lemmas about the embedded operations -/

theorem create_issue_fst (token title body : String) (net : UrlopenResult) :
    (create_issue token title body net).1 = issueRequest token title body := rfl

theorem create_issue_snd (token title body : String) (net : UrlopenResult) :
    (create_issue token title body net).2 = outcomeSucceeds net := by
  cases net with
  | ok b => cases b <;> rfl
  | err e => rfl

theorem publishLoop_requests (token : String) (net : Nat → UrlopenResult)
    (ds : List IssueDraft) :
    (publishLoop token net ds).1
      = ds.map fun d => issueRequest token d.title d.body := by
  induction ds generalizing net with
  | nil => rfl
  | cons d rest ih => simp [publishLoop, create_issue, ih]

theorem publishLoop_succeeded (token : String) (net : Nat → UrlopenResult)
    (ds : List IssueDraft) :
    (publishLoop token net ds).2.1
      = (List.range ds.length).countP fun j => outcomeSucceeds (net j) := by
  induction ds generalizing net with
  | nil => rfl
  | cons d rest ih =>
    simp only [publishLoop, create_issue_snd, ih, List.length_cons,
      List.range_succ_eq_map, List.countP_cons, List.countP_map]
    have hcomp : ((fun j => outcomeSucceeds (net j)) ∘ Nat.succ)
        = fun j => outcomeSucceeds (net (j + 1)) := rfl
    rw [hcomp]
    cases h : outcomeSucceeds (net 0) <;> simp [h]

theorem publishLoop_failed (token : String) (net : Nat → UrlopenResult)
    (ds : List IssueDraft) :
    (publishLoop token net ds).2.2
      = (List.range ds.length).countP fun j => ! outcomeSucceeds (net j) := by
  induction ds generalizing net with
  | nil => rfl
  | cons d rest ih =>
    simp only [publishLoop, create_issue_snd, ih, List.length_cons,
      List.range_succ_eq_map, List.countP_cons, List.countP_map]
    have hcomp : ((fun j => !outcomeSucceeds (net j)) ∘ Nat.succ)
        = fun j => !outcomeSucceeds (net (j + 1)) := rfl
    rw [hcomp]
    cases h : outcomeSucceeds (net 0) <;> simp [h]

/-- Unfolding `main` on a run that resolves a token and survives the label
step: the result is `finished` with the two counters and the full trace. -/
theorem main_eq_finished (w : World) (token : String)
    (htok : get_github_token w.argv w.env w.stdin = .token token)
    (hlabel : (check_and_create_label token w.labelNet).2 = none) :
    main w = .finished
        ((List.range ISSUES.length).countP fun j => outcomeSucceeds (w.issueNet j))
        ((List.range ISSUES.length).countP fun j => ! outcomeSucceeds (w.issueNet j))
        ((check_and_create_label token w.labelNet).1
          ++ ISSUES.map fun d => issueRequest token d.title d.body) := by
  rcases hc : check_and_create_label token w.labelNet with ⟨labelReqs, exn⟩
  rw [hc] at hlabel
  simp only at hlabel
  subst hlabel
  rcases hp : publishLoop token w.issueNet ISSUES with ⟨ireqs, s, f⟩
  have h1 := publishLoop_requests token w.issueNet ISSUES
  have h2 := publishLoop_succeeded token w.issueNet ISSUES
  have h3 := publishLoop_failed token w.issueNet ISSUES
  rw [hp] at h1 h2 h3
  simp only at h1 h2 h3
  subst h1 h2 h3
  simp only [main, htok, hc, hp]

end RoadmapIssues

namespace RoadmapIssues

/-! ### Helper lemmas: label step, request traces, stripping -/

theorem labelCheckUrl_beq_labelsUrl : (labelCheckUrl == labelsUrl) = false := by decide

theorem labelCheckUrl_beq_issuesUrl : (labelCheckUrl == issuesUrl) = false := by decide

theorem labelsUrl_beq_issuesUrl : (labelsUrl == issuesUrl) = false := by decide

theorem promptForToken_cases (p : String) :
    (pyStrip p = "" ∧ promptForToken p = .exit1)
    ∨ (pyStrip p ≠ "" ∧ promptForToken p = .token (pyStrip p)) := by
  by_cases h : pyStrip p = "" <;> simp [promptForToken, h]

theorem outcome_not_succeeds_eq_fails (o : UrlopenResult)
    (h : outcomeFails o = true ∨ outcomeCleanSuccess o = true) :
    (! outcomeSucceeds o) = outcomeFails o := by
  rcases o with b | e
  · rcases b with nf | _
    · rcases nf with _ | n <;>
        simp_all [outcomeFails, outcomeCleanSuccess, outcomeSucceeds]
    · simp_all [outcomeFails, outcomeCleanSuccess, outcomeSucceeds]
  · simp [outcomeFails, outcomeSucceeds]

/-- The label step always issues the GET first, and the create POST after a
404 check, in every branch. -/
theorem label_step_requests_cases (token : String) (net : LabelNet) :
    (check_and_create_label token net).1 = [labelGetRequest token]
    ∨ (check_and_create_label token net).1
        = [labelGetRequest token, labelCreateRequest token] := by
  rcases hg : net.getResult with b | e
  · exact Or.inl (by simp [check_and_create_label, hg])
  · rcases e with ⟨code, body⟩ | m
    · by_cases h404 : code = 404
      · rcases hc : net.createResult with b2 | e2
        · exact Or.inr (by simp [check_and_create_label, hg, hc, h404])
        · rcases e2 with ⟨c2, b2'⟩ | m2 <;>
            exact Or.inr (by simp [check_and_create_label, hg, hc, h404])
      · exact Or.inl (by simp [check_and_create_label, hg, h404])
    · exact Or.inl (by simp [check_and_create_label, hg])

theorem label_step_mem (token : String) (net : LabelNet) (req : Request)
    (h : req ∈ (check_and_create_label token net).1) :
    req = labelGetRequest token ∨ req = labelCreateRequest token := by
  rcases label_step_requests_cases token net with h1 | h1 <;> rw [h1] at h <;>
    simp_all

/-- Every request of a run that resolved `token` is the label GET, the label
create POST, or the issue POST of some draft. -/
theorem main_request_mem (w : World) (token : String)
    (htok : get_github_token w.argv w.env w.stdin = .token token) :
    ∀ req ∈ (main w).requests,
      req = labelGetRequest token ∨ req = labelCreateRequest token
      ∨ ∃ d ∈ ISSUES, req = issueRequest token d.title d.body := by
  intro req hreq
  rcases hc : check_and_create_label token w.labelNet with ⟨labelReqs, exn⟩
  have hlg : ∀ r ∈ labelReqs,
      r = labelGetRequest token ∨ r = labelCreateRequest token := by
    intro r hr
    exact label_step_mem token w.labelNet r (by rw [hc]; exact hr)
  cases exn with
  | some e =>
    simp only [main, htok, hc, RunResult.requests] at hreq
    rcases hlg req hreq with h | h
    · exact Or.inl h
    · exact Or.inr (Or.inl h)
  | none =>
    have hm := main_eq_finished w token htok (by rw [hc])
    rw [hm] at hreq
    rw [hc] at hreq
    simp only [RunResult.requests, List.mem_append, List.mem_map] at hreq
    rcases hreq with hreq | ⟨d, hd, rfl⟩
    · rcases hlg req hreq with h | h
      · exact Or.inl h
      · exact Or.inr (Or.inl h)
    · exact Or.inr (Or.inr ⟨d, hd, rfl⟩)

/-- Dropping while a predicate holds skips a fully satisfying prefix. -/
theorem dropWhile_append_of_all {p : Char → Bool} (l1 l2 : List Char)
    (h : ∀ c ∈ l1, p c = true) :
    List.dropWhile p (l1 ++ l2) = List.dropWhile p l2 := by
  rw [List.dropWhile_append, List.dropWhile_eq_nil_iff.mpr h]
  rfl

theorem pyStripList_all_space (l : List Char)
    (h : ∀ c ∈ l, isPySpace c = true) : pyStripList l = [] := by
  unfold pyStripList
  rw [List.dropWhile_eq_nil_iff.mpr h]
  rfl

theorem pyStrip_all_space (p : String)
    (h : ∀ c ∈ p.data, isPySpace c = true) : pyStrip p = "" := by
  unfold pyStrip
  rw [pyStripList_all_space p.data h]

/-- Stripping removes exactly the whitespace padding around a core whose
first and last characters are not whitespace. -/
theorem pyStripList_padded (pre core post : List Char)
    (hpre : ∀ c ∈ pre, isPySpace c = true)
    (hpost : ∀ c ∈ post, isPySpace c = true)
    (hcore : core ≠ [])
    (hhead : ∀ c, core.head? = some c → isPySpace c = false)
    (hlast : ∀ c, core.getLast? = some c → isPySpace c = false) :
    pyStripList (pre ++ (core ++ post)) = core := by
  obtain ⟨a, rest, rfl⟩ := List.exists_cons_of_ne_nil hcore
  have ha : isPySpace a = false := hhead a rfl
  unfold pyStripList
  rw [dropWhile_append_of_all pre _ hpre]
  rw [List.cons_append, List.dropWhile_cons, ha]
  simp only [Bool.false_eq_true, if_false, ← List.cons_append]
  rw [List.reverse_append]
  rw [dropWhile_append_of_all _ _ (by intro c hc; exact hpost c (List.mem_reverse.mp hc))]
  obtain ⟨b, rest2, hrev⟩ :=
    List.exists_cons_of_ne_nil (l := (a :: rest).reverse) (by simp)
  have hb : isPySpace b = false := by
    apply hlast
    rw [← List.head?_reverse, hrev]
    rfl
  rw [hrev, List.dropWhile_cons, hb]
  simp only [Bool.false_eq_true, if_false]
  rw [← hrev, List.reverse_reverse]

theorem pyStrip_padded (pre core post : String)
    (hpre : ∀ c ∈ pre.data, isPySpace c = true)
    (hpost : ∀ c ∈ post.data, isPySpace c = true)
    (hcore : core.data ≠ [])
    (hhead : ∀ c, core.data.head? = some c → isPySpace c = false)
    (hlast : ∀ c, core.data.getLast? = some c → isPySpace c = false) :
    pyStrip (pre ++ core ++ post) = core := by
  apply String.ext
  show pyStripList (pre ++ core ++ post).data = core.data
  rw [String.data_append, String.data_append]
  rw [List.append_assoc]
  exact pyStripList_padded pre.data core.data post.data hpre hpost hcore hhead hlast

end RoadmapIssues

namespace RoadmapIssues

/-! ### Claim theorems -/

/-- C2: when a token is available from the command line, the environment and
the prompt simultaneously, the resolver returns the command-line argument;
with no command-line argument it returns the environment value; with neither
(environment unset or empty) it returns the (stripped) prompt response. -/
theorem token_source_priority (a e p : String)
    (ha : a ≠ "") (he : e ≠ "") (hp : pyStrip p ≠ "") :
    get_github_token ["create-roadmap-issues.py", a] (some e) p = .token a
    ∧ get_github_token ["create-roadmap-issues.py"] (some e) p = .token e
    ∧ get_github_token ["create-roadmap-issues.py"] none p = .token (pyStrip p)
    ∧ get_github_token ["create-roadmap-issues.py"] (some "") p = .token (pyStrip p) := by
  refine ⟨?_, ?_, ?_, ?_⟩ <;>
    simp [get_github_token, promptForToken, he, hp]

/-- C2 witness: the priority order on a concrete argument, environment value
and prompt line. -/
theorem token_source_priority_witness :
    get_github_token ["create-roadmap-issues.py", "argtok"] (some "envtok") "came" = .token "argtok"
    ∧ get_github_token ["create-roadmap-issues.py"] (some "envtok") "came" = .token "envtok"
    ∧ get_github_token ["create-roadmap-issues.py"] none "came" = .token (pyStrip "came")
    ∧ get_github_token ["create-roadmap-issues.py"] (some "") "came" = .token (pyStrip "came") :=
  token_source_priority "argtok" "envtok" "came" (by decide) (by decide) (by decide)

/-- C3 counterexample: supplying the empty string as the command-line
argument makes the resolver return an empty token rather than exiting, so
the contract "returns a non-empty token or terminates" fails as stated. -/
theorem resolver_contract_counterexample :
    get_github_token ["create-roadmap-issues.py", ""] none "ignored" = .token ""
    ∧ ¬ resolverContract (get_github_token ["create-roadmap-issues.py", ""] none "ignored") := by
  refine ⟨rfl, fun h => h "" rfl rfl⟩

/-- C3 amended: whenever the command-line argument, if supplied, is
non-empty, the resolver either returns a non-empty token or exits with
status 1; with no sources at all it exits 1, and a run that exits this way
issues no network request. -/
theorem resolver_contract_amended (argv : List String) (env : Option String) (p : String)
    (hargv : ∀ h : 1 < argv.length, argv.get ⟨1, h⟩ ≠ "") :
    ((∃ t, get_github_token argv env p = .token t ∧ t ≠ "")
      ∨ get_github_token argv env p = .exit1)
    ∧ (¬ 1 < argv.length → (env = none ∨ env = some "") → pyStrip p = "" →
        get_github_token argv env p = .exit1)
    ∧ ∀ labelNet issueNet,
        get_github_token argv env p = .exit1 →
          main ⟨argv, env, p, labelNet, issueNet⟩ = .usageExit []
          ∧ (main ⟨argv, env, p, labelNet, issueNet⟩).requests = []
          ∧ (main ⟨argv, env, p, labelNet, issueNet⟩).exitCode = 1 := by
  refine ⟨?_, ?_, ?_⟩
  · by_cases harg : 1 < argv.length
    · exact Or.inl ⟨argv.get ⟨1, harg⟩, by simp [get_github_token, harg], hargv harg⟩
    · rcases promptForToken_cases p with ⟨hps, hpt⟩ | ⟨hps, hpt⟩
      · rcases env with _ | t
        · exact Or.inr (by simp [get_github_token, harg, hpt])
        · by_cases ht : t = ""
          · exact Or.inr (by simp [get_github_token, harg, ht, hpt])
          · exact Or.inl ⟨t, by simp [get_github_token, harg, ht], ht⟩
      · rcases env with _ | t
        · exact Or.inl ⟨pyStrip p, by simp [get_github_token, harg, hpt], hps⟩
        · by_cases ht : t = ""
          · exact Or.inl ⟨pyStrip p, by simp [get_github_token, harg, ht, hpt], hps⟩
          · exact Or.inl ⟨t, by simp [get_github_token, harg, ht], ht⟩
  · intro harg henv hps
    have hpt : promptForToken p = .exit1 := by simp [promptForToken, hps]
    rcases henv with rfl | rfl
    · simp [get_github_token, harg, hpt]
    · simp [get_github_token, harg, hpt]
  · intro labelNet issueNet hexit
    refine ⟨?_, ?_, ?_⟩ <;> simp [main, hexit, RunResult.requests, RunResult.exitCode]

/-- C3 witness: with no argument, no environment value and a blank prompt
response the resolver exits 1 and the run issues no request. -/
theorem resolver_contract_amended_witness :
    (((∃ t, get_github_token ["create-roadmap-issues.py"] none " " = .token t ∧ t ≠ "")
      ∨ get_github_token ["create-roadmap-issues.py"] none " " = .exit1))
    ∧ main ⟨["create-roadmap-issues.py"], none, " ", crashWorld.labelNet, crashWorld.issueNet⟩
        = .usageExit [] := by
  have h := resolver_contract_amended ["create-roadmap-issues.py"] none " "
    (by intro h; simp at h)
  exact ⟨h.1, (h.2.2 crashWorld.labelNet crashWorld.issueNet (by decide)).1⟩

/-- C9: the prompt response is stripped before the emptiness check and
before being returned: a whitespace-only response exits with status 1, and a
response padded with whitespace is returned without the padding. -/
theorem prompt_response_stripped (p pre core post : String)
    (hws : ∀ c ∈ p.data, isPySpace c = true)
    (hpre : ∀ c ∈ pre.data, isPySpace c = true)
    (hpost : ∀ c ∈ post.data, isPySpace c = true)
    (hcore : core.data ≠ [])
    (hhead : ∀ c, core.data.head? = some c → isPySpace c = false)
    (hlast : ∀ c, core.data.getLast? = some c → isPySpace c = false) :
    get_github_token ["create-roadmap-issues.py"] none p = .exit1
    ∧ get_github_token ["create-roadmap-issues.py"] none (pre ++ core ++ post)
        = .token core := by
  constructor
  · simp [get_github_token, promptForToken, pyStrip_all_space p hws]
  · have hs := pyStrip_padded pre core post hpre hpost hcore hhead hlast
    have hne : core ≠ "" := fun h => hcore (by rw [h])
    simp [get_github_token, promptForToken, hs, hne]

/-- C9 witness: a whitespace-only response exits; ` tok ` is returned as
`tok`. -/
theorem prompt_response_stripped_witness :
    get_github_token ["create-roadmap-issues.py"] none " \t " = .exit1
    ∧ get_github_token ["create-roadmap-issues.py"] none (" " ++ "tok" ++ "  ")
        = .token "tok" :=
  prompt_response_stripped " \t " " " "tok" "  "
    (by decide) (by decide) (by decide) (by decide) (by decide) (by decide)

/-- C10: a create-issue call counts as a success exactly when `urlopen`
returns and its body parses as JSON with a `number` field; in particular a
successful response whose body is not JSON counts as a failure. -/
theorem success_needs_number_field :
    (∀ token title body net,
      ((create_issue token title body net).2 = true
        ↔ ∃ n, net = .ok (.json (some n))))
    ∧ ∀ token title body,
        (create_issue token title body (.ok .notJson)).2 = false := by
  constructor
  · intro token title body net
    constructor
    · intro h
      rcases net with nf | e
      · rcases nf with nf | _
        · rcases nf with _ | n
          · simp [create_issue] at h
          · exact ⟨n, rfl⟩
        · simp [create_issue] at h
      · simp [create_issue] at h
    · rintro ⟨n, rfl⟩
      rfl
  · intro token title body
    rfl

end RoadmapIssues

namespace RoadmapIssues

/-- C1: when each of the N drafts' requests either fails (non-2xx response
or transport exception) or cleanly succeeds, the publisher attempts all N
requests in list order with no early termination, the final tally reports
N - K successes and K failures, and the run exits 1 when K > 0 and 0 when
K = 0. -/
theorem publisher_attempts_all (w : World) (token : String) (K : Nat)
    (htok : get_github_token w.argv w.env w.stdin = .token token)
    (hlabel : (check_and_create_label token w.labelNet).2 = none)
    (hpart : ∀ j < ISSUES.length,
      outcomeFails (w.issueNet j) = true ∨ outcomeCleanSuccess (w.issueNet j) = true)
    (hK : K = (List.range ISSUES.length).countP fun j => outcomeFails (w.issueNet j)) :
    main w = .finished (ISSUES.length - K) K
        ((check_and_create_label token w.labelNet).1
          ++ ISSUES.map fun d => issueRequest token d.title d.body)
    ∧ (main w).exitCode = if 0 < K then 1 else 0 := by
  have hm := main_eq_finished w token htok hlabel
  have hcong : ((List.range ISSUES.length).countP fun j => ! outcomeSucceeds (w.issueNet j))
      = (List.range ISSUES.length).countP fun j => outcomeFails (w.issueNet j) := by
    refine List.countP_congr ?_
    intro j hj
    rw [outcome_not_succeeds_eq_fails (w.issueNet j) (hpart j (List.mem_range.mp hj))]
  have hfK : ((List.range ISSUES.length).countP fun j => ! outcomeSucceeds (w.issueNet j))
      = K := hcong.trans hK.symm
  have hNK : ((List.range ISSUES.length).countP fun j => outcomeSucceeds (w.issueNet j))
      = ISSUES.length - K := by
    have htot := List.length_eq_countP_add_countP
      (fun j => outcomeSucceeds (w.issueNet j)) (List.range ISSUES.length)
    have hneg : ((List.range ISSUES.length).countP
        fun a => decide ¬(outcomeSucceeds (w.issueNet a) = true))
        = (List.range ISSUES.length).countP fun j => ! outcomeSucceeds (w.issueNet j) := by
      refine List.countP_congr ?_
      intro j hj
      simp
    rw [List.length_range] at htot
    omega
  rw [hm, hNK, hfK]
  exact ⟨rfl, rfl⟩

/-- C1 witness: in the run where the second of the 37 requests returns HTTP
422 and the rest succeed, all 37 are attempted, the tally is 36/1, and the
exit status is 1. -/
theorem publisher_attempts_all_witness :
    main mixedWorld = .finished (ISSUES.length - 1) 1
        ((check_and_create_label "tok" mixedWorld.labelNet).1
          ++ ISSUES.map fun d => issueRequest "tok" d.title d.body)
    ∧ (main mixedWorld).exitCode = if 0 < 1 then 1 else 0 :=
  publisher_attempts_all mixedWorld "tok" 1 rfl rfl
    (by
      intro j hj
      by_cases h : j = 1 <;>
        simp [mixedWorld, h, outcomeFails, outcomeCleanSuccess])
    (by decide)

/-- C4: a 404 label check triggers exactly one create-label POST, carrying
the fixed name, description and color; a successful (200) check triggers
zero create-label requests. -/
theorem label_ensurer_create_count (token errBody : String) (net : LabelNet) :
    (net.getResult = .err (.httpError 404 errBody) →
      (check_and_create_label token net).1
          = [labelGetRequest token, labelCreateRequest token]
      ∧ ((check_and_create_label token net).1.countP fun r =>
            r.url == labelsUrl && r.method == "POST") = 1
      ∧ (labelCreateRequest token).body
          = .labelCreate "feature" "New feature or enhancement" "0E8A16")
    ∧ ∀ b, net.getResult = .ok b →
      (check_and_create_label token net).1 = [labelGetRequest token]
      ∧ ((check_and_create_label token net).1.countP fun r =>
            r.url == labelsUrl && r.method == "POST") = 0 := by
  constructor
  · intro hg
    have htrace : (check_and_create_label token net).1
        = [labelGetRequest token, labelCreateRequest token] := by
      rcases hcr : net.createResult with b2 | e2
      · simp [check_and_create_label, hg, hcr]
      · rcases e2 with ⟨c2, b2'⟩ | m2 <;> simp [check_and_create_label, hg, hcr]
    refine ⟨htrace, ?_, rfl⟩
    rw [htrace]
    simp [List.countP_cons, labelGetRequest, labelCreateRequest,
      labelCheckUrl_beq_labelsUrl]
  · intro b hg
    have htrace : (check_and_create_label token net).1 = [labelGetRequest token] := by
      simp [check_and_create_label, hg]
    refine ⟨htrace, ?_⟩
    rw [htrace]
    simp [List.countP_cons, labelGetRequest, labelCheckUrl_beq_labelsUrl]

/-- C4 witness: concrete 404 and 200 label-check outcomes. -/
theorem label_ensurer_create_count_witness :
    (check_and_create_label "tok"
        ⟨.err (.httpError 404 "Not Found"), .ok (.json none)⟩).1
      = [labelGetRequest "tok", labelCreateRequest "tok"]
    ∧ (check_and_create_label "tok" ⟨.ok (.json none), .ok (.json none)⟩).1
      = [labelGetRequest "tok"] :=
  ⟨((label_ensurer_create_count "tok" "Not Found"
      ⟨.err (.httpError 404 "Not Found"), .ok (.json none)⟩).1 rfl).1,
   ((label_ensurer_create_count "tok" "Not Found"
      ⟨.ok (.json none), .ok (.json none)⟩).2 (.json none) rfl).1⟩

/-- C5 counterexample: a transport error (a `URLError` that is not an
`HTTPError`) on the label-check GET is not caught by
`check_and_create_label`, so the run crashes instead of continuing to the
Issue Publisher. -/
theorem label_ensurer_escape_counterexample :
    (check_and_create_label "tok" crashWorld.labelNet).2
        = some (.transport "connection refused")
    ∧ main crashWorld
        = .crashed (.transport "connection refused") [labelGetRequest "tok"] :=
  ⟨rfl, rfl⟩

/-- C5 amended: for every outcome of the label-check and create-label
requests in which each failure is an HTTP status error, no exception escapes
(the failure is logged as a warning) and execution continues to the Issue
Publisher; a non-HTTP transport error, however, escapes. -/
theorem label_ensurer_no_escape_amended (w : World) (token : String)
    (htok : get_github_token w.argv w.env w.stdin = .token token)
    (hget : ∀ m, w.labelNet.getResult ≠ .err (.transport m))
    (hcreate : ∀ m, w.labelNet.createResult ≠ .err (.transport m)) :
    (check_and_create_label token w.labelNet).2 = none
    ∧ ∃ s f reqs, main w = .finished s f reqs := by
  have hnone : (check_and_create_label token w.labelNet).2 = none := by
    rcases hg : w.labelNet.getResult with b | e
    · simp [check_and_create_label, hg]
    · rcases e with ⟨c, eb⟩ | m
      · by_cases h404 : c = 404
        · rcases hcr : w.labelNet.createResult with b2 | e2
          · simp [check_and_create_label, hg, hcr, h404]
          · rcases e2 with ⟨c2, b2'⟩ | m2
            · simp [check_and_create_label, hg, hcr, h404]
            · exact absurd hcr (hcreate m2)
        · simp [check_and_create_label, hg, h404]
      · exact absurd hg (hget m)
  exact ⟨hnone, _, _, _, main_eq_finished w token htok hnone⟩

/-- C5 witness: with HTTP-only outcomes (label present) the label step
escapes nothing and the run reaches the publisher. -/
theorem label_ensurer_no_escape_amended_witness :
    (check_and_create_label "tok" okWorld.labelNet).2 = none
    ∧ ∃ s f reqs, main okWorld = .finished s f reqs :=
  label_ensurer_no_escape_amended okWorld "tok" rfl
    (by intro m h; simp [okWorld] at h)
    (by intro m h; simp [okWorld] at h)

end RoadmapIssues

namespace RoadmapIssues

/-- C6: for every draft in the fixed ordered list, the publisher issues a
create-issue POST whose JSON body carries exactly the draft's title, the
draft's body and the label list ["feature"]. -/
theorem publisher_request_shape (w : World) (token : String) (d : IssueDraft)
    (htok : get_github_token w.argv w.env w.stdin = .token token)
    (hlabel : (check_and_create_label token w.labelNet).2 = none)
    (hd : d ∈ ISSUES) :
    issueRequest token d.title d.body ∈ (main w).requests
    ∧ (issueRequest token d.title d.body).method = "POST"
    ∧ (issueRequest token d.title d.body).url = issuesUrl
    ∧ (issueRequest token d.title d.body).body
        = .issueCreate d.title d.body ["feature"] := by
  refine ⟨?_, rfl, rfl, rfl⟩
  rw [main_eq_finished w token htok hlabel]
  simp only [RunResult.requests, List.mem_append, List.mem_map]
  exact Or.inr ⟨d, hd, rfl⟩

/-- C6 witness: the first draft's request is issued in the all-success run. -/
theorem publisher_request_shape_witness :
    issueRequest "tok" (ISSUES.get ⟨0, by decide⟩).title
        (ISSUES.get ⟨0, by decide⟩).body ∈ (main okWorld).requests :=
  (publisher_request_shape okWorld "tok" (ISSUES.get ⟨0, by decide⟩) rfl rfl
    (List.get_mem ISSUES 0 (by decide))).1

/-- C7 counterexample: the fixed list contains 37 drafts, not 38. -/
theorem issues_count_counterexample : ¬ ISSUES.length = 38 := by decide

/-- C7 amended: the fixed static list contains exactly 37 (title, body)
pairs, so every run that reaches the Issue Publisher attempts exactly 37
create-issue requests. -/
theorem issues_count_amended (w : World) (token : String)
    (htok : get_github_token w.argv w.env w.stdin = .token token)
    (hlabel : (check_and_create_label token w.labelNet).2 = none) :
    ISSUES.length = 37
    ∧ ((main w).requests.countP fun r =>
        r.url == issuesUrl && r.method == "POST") = 37 := by
  refine ⟨by decide, ?_⟩
  rw [main_eq_finished w token htok hlabel]
  simp only [RunResult.requests, List.countP_append]
  have h0 : ((check_and_create_label token w.labelNet).1.countP
      fun r => r.url == issuesUrl && r.method == "POST") = 0 := by
    rcases label_step_requests_cases token w.labelNet with h | h <;> rw [h] <;>
      simp [List.countP_cons, labelGetRequest, labelCreateRequest,
        labelCheckUrl_beq_issuesUrl, labelsUrl_beq_issuesUrl]
  have h1 : ((ISSUES.map fun d => issueRequest token d.title d.body).countP
      fun r => r.url == issuesUrl && r.method == "POST") = ISSUES.length := by
    rw [List.countP_map]
    have hp : ((fun r : Request => r.url == issuesUrl && r.method == "POST")
        ∘ fun d : IssueDraft => issueRequest token d.title d.body)
        = fun _ => true := by
      funext d
      simp [issueRequest, Function.comp]
    rw [hp, List.countP_true]
  rw [h0, h1]
  decide

/-- C7 witness: the all-success run issues exactly 37 create-issue POSTs. -/
theorem issues_count_amended_witness :
    ISSUES.length = 37
    ∧ ((main okWorld).requests.countP fun r =>
        r.url == issuesUrl && r.method == "POST") = 37 :=
  issues_count_amended okWorld "tok" rfl rfl

/-- C8: every request the program issues — label check, label create, and
each issue create — carries the token authorization header and the
versioned-JSON Accept header. -/
theorem requests_carry_auth_headers (w : World) (token : String)
    (htok : get_github_token w.argv w.env w.stdin = .token token) :
    ∀ req ∈ (main w).requests,
      authHeader token ∈ req.headers ∧ acceptHeader ∈ req.headers := by
  intro req hreq
  rcases main_request_mem w token htok req hreq with h | h | ⟨d, _, h⟩ <;> subst h <;>
    simp [labelGetRequest, labelCreateRequest, issueRequest, labelHeaders]

/-- C8 witness: the label-check request of the all-success run carries both
headers. -/
theorem requests_carry_auth_headers_witness :
    authHeader "tok" ∈ (labelGetRequest "tok").headers
    ∧ acceptHeader ∈ (labelGetRequest "tok").headers :=
  requests_carry_auth_headers okWorld "tok" rfl (labelGetRequest "tok")
    (by
      rw [main_eq_finished okWorld "tok" rfl rfl]
      simp only [RunResult.requests]
      exact List.mem_append_left _ (List.Mem.head _))

end RoadmapIssues
